import Mathlib

/-!
Verification of the diagram-generator script docs/architecture-diagram.py.

The script is a single straight-line procedure, create_architecture_diagram,
that draws a fixed set of rounded-rectangle shapes, arrows and text on a
matplotlib figure, encodes the figure as a PNG raster into an in-memory
buffer, re-encodes that raster as a WEBP file on disk, closes the figure and
prints a confirmation line.

The shallow embedding below has three layers:

1. DrawCmd: one value per drawing call of the script (lines 35-194 of the
   source), in source order, with every literal argument carried verbatim.
   Loops of the source (the arrow loop and the two text-block loops) are
   embedded as maps over the same literal lists the source iterates over.

2. Step / runSteps: the whole procedure as a list of effectful steps
   executed in order over an explicit interpreter state (file system, open
   figure count, in-memory buffer, stdout).  The interpreter takes a
   failure-injection oracle (failAt) used to reason about error
   propagation, since the source contains no try/except.  File-system
   behaviour of the image write (directory must exist and be writable;
   the encoded file is written in one atomic step because the WEBP bytes
   are fully produced in memory before the write) is modelled explicitly.

3. outputDims / renderImage: the pixel dimensions of the rasterized
   output.  Modelled from the spec: matplotlib renders at figsize times
   dpi and the savefig call uses a tight bounding box, which trims the
   margins outside the drawn content (content extents are approximated by
   the anchor coordinates of the drawing commands, since font metrics are
   outside the embedding); per-run rasterization nondeterminism
   (anti-aliasing, encoder choices) is an oracle that can affect pixel
   values but not dimensions.
-/

namespace ArchDiagram

/-- Styling block passed as the bbox=dict(...) argument of an ax.text call:
boxstyle, facecolor and optional alpha. -/
structure BoxSpec where
  boxstyle : String
  facecolor : String
  alpha : Option ℚ
deriving DecidableEq, Repr

/-- One ax.text call with all its arguments; omitted keyword arguments are
filled with the matplotlib defaults (fontweight normal, ha left,
va baseline, style normal, color black, no rot, no box). -/
structure TextSpec where
  x : ℚ
  y : ℚ
  content : String
  fontsize : ℚ
  fontweight : String
  ha : String
  va : String
  style : String
  color : String
  rot : ℚ
  box : Option BoxSpec
deriving DecidableEq, Repr

/-- One drawing call of create_architecture_diagram, tagged by the role the
source gives it: the canvas title (drawn once, line 35), a shape patch
(FancyBboxPatch + add_patch), a text label belonging to the immediately
preceding shape, an arrow patch (ConnectionPatch + add_patch), or a
free-standing annotation text (flow labels, process indicators, the two
text blocks). -/
inductive DrawCmd where
  | titleText (t : TextSpec)
  | shapePatch (x y w h : ℚ) (boxstyle facecolor edgecolor : String) (linewidth : ℚ)
  | shapeLabel (t : TextSpec)
  | arrowPatch (startPt endPt : ℚ × ℚ) (arrowstyle : String)
      (shrinkA shrinkB mutationScale : ℚ) (fc ec : String) (linewidth : ℚ)
  | noteText (t : TextSpec)
deriving DecidableEq, Repr

/-- The colors dictionary of the source (lines 22-32). -/
def colors (k : String) : String :=
  match k with
  | "frontend" => "#61DAFB"
  | "api" => "#FF6B6B"
  | "lambda" => "#FF9F43"
  | "bedrock" => "#9B59B6"
  | "opensearch" => "#3742FA"
  | "storage" => "#2ED573"
  | "database" => "#FFA502"
  | "user" => "#A4B0BE"
  | "flow" => "#2F3542"
  | _ => ""

/-- Title text, source line 35. -/
def titleCmd : DrawCmd :=
  .titleText ⟨8, 11.5, "POC RAG Knowledge Base System Architecture",
    20, "bold", "center", "baseline", "normal", "black", 0, none⟩

/-- Shape boxes and their labels, source lines 39-117, in source order. -/
def shapeCmds : List DrawCmd :=
  [ .shapePatch 1 9.5 2 1 "round,pad=0.1" (colors "user") "black" 2,
    .shapeLabel ⟨2, 10, "User\n(Browser)", 10, "bold", "center", "center",
      "normal", "black", 0, none⟩,
    .shapePatch 6 9.5 3 1 "round,pad=0.1" (colors "frontend") "black" 2,
    .shapeLabel ⟨7.5, 10, "Frontend\n(React App)", 10, "bold", "center", "center",
      "normal", "black", 0, none⟩,
    .shapePatch 6 7.5 3 1 "round,pad=0.1" (colors "api") "black" 2,
    .shapeLabel ⟨6.2, 8.3, "API", 8, "bold", "left", "center", "normal", "black", 0,
      some ⟨"round,pad=0.2", "white", some 0.8⟩⟩,
    .shapeLabel ⟨7.5, 8, "API Gateway\n(REST API)", 10, "bold", "center", "center",
      "normal", "black", 0, none⟩,
    .shapePatch 6 5.5 3 1 "round,pad=0.1" (colors "lambda") "black" 2,
    .shapeLabel ⟨6.2, 6.3, "λ", 12, "bold", "left", "center", "normal", "white", 0, none⟩,
    .shapeLabel ⟨7.5, 6, "Lambda Functions\n(Go Backend)", 10, "bold", "center", "center",
      "normal", "black", 0, none⟩,
    .shapePatch 2 3.5 3 1 "round,pad=0.1" (colors "bedrock") "black" 2,
    .shapeLabel ⟨2.2, 4.3, "BR", 8, "bold", "left", "center", "normal", "black", 0,
      some ⟨"round,pad=0.2", "white", some 0.8⟩⟩,
    .shapeLabel ⟨3.5, 4, "AWS Bedrock\nKnowledge Base\n(Claude 3 Haiku)", 9, "bold",
      "center", "center", "normal", "white", 0, none⟩,
    .shapePatch 10 3.5 3 1 "round,pad=0.1" (colors "opensearch") "black" 2,
    .shapeLabel ⟨10.2, 4.3, "OS", 8, "bold", "left", "center", "normal", "white", 0,
      some ⟨"round,pad=0.2", "white", some 0.3⟩⟩,
    .shapeLabel ⟨11.5, 4, "OpenSearch\nServerless\n(Vector Search)", 9, "bold",
      "center", "center", "normal", "white", 0, none⟩,
    .shapePatch 2 1.5 3 1 "round,pad=0.1" (colors "storage") "black" 2,
    .shapeLabel ⟨2.2, 2.3, "S3", 8, "bold", "left", "center", "normal", "black", 0,
      some ⟨"round,pad=0.2", "white", some 0.8⟩⟩,
    .shapeLabel ⟨3.5, 2, "Amazon S3\n(Document Storage)", 10, "bold", "center", "center",
      "normal", "white", 0, none⟩,
    .shapePatch 10 5.5 3 1 "round,pad=0.1" (colors "database") "black" 2,
    .shapeLabel ⟨10.2, 6.3, "DB", 8, "bold", "left", "center", "normal", "black", 0,
      some ⟨"round,pad=0.2", "white", some 0.8⟩⟩,
    .shapeLabel ⟨11.5, 6, "DynamoDB\n(Metadata)", 10, "bold", "center", "center",
      "normal", "black", 0, none⟩ ]

/-- The arrows endpoint list of the source (lines 120-137). -/
def arrows : List ((ℚ × ℚ) × (ℚ × ℚ)) :=
  [ ((3, 10), (6, 10)),
    ((7.5, 9.5), (7.5, 8.5)),
    ((7.5, 7.5), (7.5, 6.5)),
    ((6.5, 6), (4.5, 4.5)),
    ((8.5, 6), (10.5, 6)),
    ((5, 4), (10, 4)),
    ((3.5, 3.5), (3.5, 2.5)),
    ((5, 2), (10, 3.5)) ]

/-- The arrow-drawing loop of the source (lines 139-144): one
ConnectionPatch per endpoint pair, uniformly styled. -/
def arrowCmds : List DrawCmd :=
  arrows.map (fun p =>
    .arrowPatch p.1 p.2 "->" 5 5 20 (colors "flow") (colors "flow") 2)

/-- Flow labels, source lines 147-154. -/
def flowLabelCmds : List DrawCmd :=
  [ .noteText ⟨4.5, 10.3, "HTTP Requests", 8, "normal", "center", "baseline",
      "italic", "black", 0, none⟩,
    .noteText ⟨8.5, 9, "REST API", 8, "normal", "center", "baseline",
      "italic", "black", 0, none⟩,
    .noteText ⟨8.5, 7, "Function Calls", 8, "normal", "center", "baseline",
      "italic", "black", 0, none⟩,
    .noteText ⟨5, 5, "RAG Query", 8, "normal", "center", "baseline",
      "italic", "black", 45, none⟩,
    .noteText ⟨9.5, 6.3, "Metadata", 8, "normal", "center", "baseline",
      "italic", "black", 0, none⟩,
    .noteText ⟨7.5, 4.3, "Vector Search", 8, "normal", "center", "baseline",
      "italic", "black", 0, none⟩,
    .noteText ⟨1.5, 3, "Document\nRetrieval", 8, "normal", "center", "baseline",
      "italic", "black", 0, none⟩,
    .noteText ⟨7.5, 2.8, "Document\nIngestion", 8, "normal", "center", "baseline",
      "italic", "black", 30, none⟩ ]

/-- Process flow indicators, source lines 157-160. -/
def processCmds : List DrawCmd :=
  [ .noteText ⟨0.5, 8, "1. Upload", 9, "bold", "left", "baseline", "normal", "black", 0,
      some ⟨"round,pad=0.3", "lightblue", none⟩⟩,
    .noteText ⟨0.5, 7.5, "2. Query", 9, "bold", "left", "baseline", "normal", "black", 0,
      some ⟨"round,pad=0.3", "lightgreen", none⟩⟩,
    .noteText ⟨0.5, 7, "3. Retrieve", 9, "bold", "left", "baseline", "normal", "black", 0,
      some ⟨"round,pad=0.3", "lightyellow", none⟩⟩,
    .noteText ⟨0.5, 6.5, "4. Generate", 9, "bold", "left", "baseline", "normal", "black", 0,
      some ⟨"round,pad=0.3", "lightcoral", none⟩⟩ ]

/-- The tech_info string list of the source (lines 163-173). -/
def techInfo : List String :=
  [ "Technology Stack:",
    "• Frontend: React + TypeScript",
    "• Backend: Go + AWS Lambda",
    "• API: AWS API Gateway",
    "• AI: AWS Bedrock (Claude 3 Haiku)",
    "• Search: OpenSearch Serverless",
    "• Storage: Amazon S3",
    "• Database: DynamoDB",
    "• Infrastructure: AWS SAM" ]

/-- The tech_info loop of the source (lines 175-178): line i is drawn at
y = 8.5 - i*0.3, bold and boxed exactly when i = 0. -/
def techCmds : List DrawCmd :=
  techInfo.enum.map (fun p =>
    .noteText ⟨14, 8.5 - (p.1 : ℚ) * 0.3, p.2, 8,
      if p.1 = 0 then "bold" else "normal", "left", "baseline", "normal", "black", 0,
      if p.1 = 0 then some ⟨"round,pad=0.1", "white", some 0.8⟩ else none⟩)

/-- The features string list of the source (lines 181-189). -/
def features : List String :=
  [ "Key Features:",
    "• PDF/Text Document Upload",
    "• Vector-based Semantic Search",
    "• AI-Powered Question Answering",
    "• Real-time Chat Interface",
    "• Serverless Architecture",
    "• Japanese Language Support" ]

/-- The features loop of the source (lines 191-194): line i is drawn at
y = 5.5 - i*0.3, bold and boxed exactly when i = 0. -/
def featureCmds : List DrawCmd :=
  features.enum.map (fun p =>
    .noteText ⟨14, 5.5 - (p.1 : ℚ) * 0.3, p.2, 8,
      if p.1 = 0 then "bold" else "normal", "left", "baseline", "normal", "black", 0,
      if p.1 = 0 then some ⟨"round,pad=0.1", "white", some 0.8⟩ else none⟩)

/-- All drawing calls of create_architecture_diagram, in the exact order the
source issues them (lines 35-194). -/
def diagramCommands : List DrawCmd :=
  titleCmd :: (shapeCmds ++ arrowCmds ++ flowLabelCmds ++ processCmds ++ techCmds ++ featureCmds)

/-!
Interpreter layer: the procedure as a list of effectful steps over an
explicit state, with a failure-injection oracle.
-/

/-- Content of the in-memory raster produced by plt.savefig (source
line 200): the intermediate format, its dpi, the rendered pixel
dimensions, whether the tight bounding box was requested, and the face
color.  The pixel dimensions are filled in from outputDims below when the
step executes. -/
structure PngData where
  format : String
  dpi : ℚ
  width : ℕ
  height : ℕ
  bboxTight : Bool
  facecolor : String
deriving DecidableEq, Repr

/-- A file produced by Image.save (source line 205): the on-disk format,
the quality and optimize options, and the raster it re-encodes. -/
structure FileData where
  format : String
  quality : ℕ
  optimize : Bool
  source : PngData
deriving DecidableEq, Repr

/-- File-system model: directories that exist, each with a writable flag,
and files as an association list from path to data.  Modelled from the
spec: the image write fails with an I/O error when the output path's
directory does not exist or is not writable, and overwrites silently
otherwise. -/
structure FS where
  dirs : List (String × Bool)
  files : List (String × FileData)
deriving DecidableEq, Repr

/-- A directory exists and is writable. -/
def FS.writableDir (fs : FS) (d : String) : Bool :=
  (fs.dirs.lookup d).getD false

/-- Look up the file stored at a path. -/
def FS.lookupFile (fs : FS) (p : String) : Option FileData :=
  fs.files.lookup p

/-- Store a file at a path, replacing any file already there. -/
def FS.setFile (fs : FS) (p : String) (f : FileData) : FS :=
  ⟨fs.dirs, (p, f) :: fs.files.filter (fun q => q.1 != p)⟩

/-- Directory part of a relative path: everything before the last slash. -/
def parentDir (p : String) : String :=
  String.mk ((((p.toList.reverse).dropWhile (fun c => c ≠ '/')).drop 1).reverse)

/-- Interpreter state: the file system, matplotlib's count of open
figures, the in-memory PNG buffer, the PIL image opened from it, and the
lines written to standard output. -/
structure PyState where
  fs : FS
  openFigures : ℕ
  buffer : Option PngData
  image : Option PngData
  stdout : List String
deriving DecidableEq, Repr

/-- Errors: an inherent I/O error (unwritable or missing directory), an
inherent runtime error (using a buffer that was never filled), or an
error injected by the failure oracle to model a library call raising. -/
inductive PyErr where
  | ioError
  | runtime
  | injected
deriving DecidableEq, Repr

/-- Observable events of one execution, in order. -/
inductive Effect where
  | newFigure (w h : ℚ)
  | draw (c : DrawCmd)
  | tightLayout
  | savefigBuffer (p : PngData)
  | seek (pos : ℕ)
  | openBuffer
  | fsWrite (path fmt : String) (quality : ℕ) (optimize : Bool)
  | closeFigure
  | printLine (s : String)
deriving DecidableEq, Repr

def Effect.isFsWrite : Effect → Bool
  | .fsWrite _ _ _ _ => true
  | _ => false

def Effect.isPrint : Effect → Bool
  | .printLine _ => true
  | _ => false

def Effect.isClose : Effect → Bool
  | .closeFigure => true
  | _ => false

def Effect.isSavefig : Effect → Bool
  | .savefigBuffer _ => true
  | _ => false

/-- The steps of create_architecture_diagram: figure creation with axis
setup (lines 16-19), one step per drawing call (lines 35-194),
tight_layout (196), savefig to the buffer (199-200), buffer.seek(0)
(201), Image.open (204), Image.save (205), plt.close (207) and the
confirmation print (208). -/
inductive Step where
  | createFigure
  | draw (c : DrawCmd)
  | tightLayout
  | savefigPng
  | seekBuffer
  | openImage
  | saveWebp
  | closeFig
  | printDone
deriving DecidableEq, Repr

/-- The output path literal of source line 205. -/
def outPath : String := "docs/architecture-overview.webp"

/-- The confirmation line of source line 208. -/
def confirmMsg : String := "✅ Architecture diagram saved as docs/architecture-overview.webp"

/-!
Dimension model for the rasterized output.
-/

/-- The figure width in units/inches, figsize=(16, 12) of source line 16. -/
def figW : ℚ := 16

/-- The figure height in units/inches, figsize=(16, 12) of source line 16. -/
def figH : ℚ := 12

/-- The dpi argument of the savefig call, source line 200. -/
def dpiVal : ℚ := 300

/-- Modelled from the spec: the default padding, in inches, that the tight
bounding box of savefig leaves around the drawn content. -/
def padInches : ℚ := 0.1

/-- Anchor coordinates of a drawing command, used to approximate the extent
of the drawn content: both corners for a shape, both endpoints for an
arrow, the anchor point for a text. -/
def DrawCmd.anchors : DrawCmd → List (ℚ × ℚ)
  | .titleText t => [(t.x, t.y)]
  | .shapePatch x y w h _ _ _ _ => [(x, y), (x + w, y + h)]
  | .shapeLabel t => [(t.x, t.y)]
  | .arrowPatch s e _ _ _ _ _ _ _ => [s, e]
  | .noteText t => [(t.x, t.y)]

/-- Bounding box (minX, minY, maxX, maxY) of the anchor coordinates of a
command list; (0, 0, 0, 0) for an empty list. -/
def contentBounds (cs : List DrawCmd) : ℚ × ℚ × ℚ × ℚ :=
  match (cs.map DrawCmd.anchors).flatten with
  | [] => (0, 0, 0, 0)
  | p :: ps =>
    (ps.foldl (fun a q => min a q.1) p.1,
     ps.foldl (fun a q => min a q.2) p.2,
     ps.foldl (fun a q => max a q.1) p.1,
     ps.foldl (fun a q => max a q.2) p.2)

/-- Width, in figure units, of the tight bounding box around the content. -/
def tightW (cs : List DrawCmd) : ℚ :=
  (contentBounds cs).2.2.1 - (contentBounds cs).1 + 2 * padInches

/-- Height, in figure units, of the tight bounding box around the content. -/
def tightH (cs : List DrawCmd) : ℚ :=
  (contentBounds cs).2.2.2 - (contentBounds cs).2.1 + 2 * padInches

/-- Modelled from the spec: pixel dimensions of the rasterized output,
the tight bounding box scaled by the dpi of the savefig call. -/
def outputDims (cs : List DrawCmd) : ℕ × ℕ :=
  ((Rat.floor (dpiVal * tightW cs)).toNat, (Rat.floor (dpiVal * tightH cs)).toNat)

/-- Pixels removed horizontally from the nominal width by the tight crop. -/
def trimPxW (cs : List DrawCmd) : ℕ :=
  (Rat.floor (dpiVal * (figW - tightW cs))).toNat

/-- Pixels removed vertically from the nominal height by the tight crop. -/
def trimPxH (cs : List DrawCmd) : ℕ :=
  (Rat.floor (dpiVal * (figH - tightH cs))).toNat

/-- Per-run rasterization nondeterminism: a sampling of anti-aliasing and
encoder choices, which can affect pixel values but not geometry. -/
structure RenderSample where
  pixel : ℕ → ℕ → ℕ × ℕ × ℕ

/-- A decoded raster image: pixel dimensions and pixel contents. -/
structure RenderedImage where
  width : ℕ
  height : ℕ
  px : ℕ → ℕ → ℕ × ℕ × ℕ

/-- Modelled from the spec: rendering a command list produces an image
whose dimensions are determined by the description alone, and whose pixel
contents may additionally depend on the rasterization sample. -/
def renderImage (cs : List DrawCmd) (o : RenderSample) : RenderedImage :=
  ⟨(outputDims cs).1, (outputDims cs).2, fun x y => o.pixel x y⟩

/-!
Step semantics and the interpreter.
-/

/-- The raster placed into the in-memory buffer by savefig: format png,
dpi 300, tight bounding box, white face color (source line 200). -/
def thePng : PngData :=
  ⟨"png", 300, (outputDims diagramCommands).1, (outputDims diagramCommands).2, true, "white"⟩

/-- The file written by Image.save: WEBP, quality 90, optimized,
re-encoding the buffered PNG raster (source line 205). -/
def theFile : FileData := ⟨"WEBP", 90, true, thePng⟩

/-- Semantics of one step: the new state and the effects it emits, or an
inherent error.  Only saveWebp touches the file system; it checks that
the directory of the output path exists and is writable, and writes the
fully encoded file in one step (the WEBP bytes are produced in memory
before the write). -/
def execStep (st : PyState) : Step → Except PyErr (PyState × List Effect)
  | .createFigure =>
      .ok (⟨st.fs, st.openFigures + 1, st.buffer, st.image, st.stdout⟩, [.newFigure 16 12])
  | .draw c => .ok (st, [.draw c])
  | .tightLayout => .ok (st, [.tightLayout])
  | .savefigPng =>
      .ok (⟨st.fs, st.openFigures, some thePng, st.image, st.stdout⟩, [.savefigBuffer thePng])
  | .seekBuffer => .ok (st, [.seek 0])
  | .openImage =>
      match st.buffer with
      | none => .error .runtime
      | some png =>
          .ok (⟨st.fs, st.openFigures, st.buffer, some png, st.stdout⟩, [.openBuffer])
  | .saveWebp =>
      match st.image with
      | none => .error .runtime
      | some png =>
          if st.fs.writableDir (parentDir outPath) then
            .ok (⟨st.fs.setFile outPath ⟨"WEBP", 90, true, png⟩, st.openFigures,
                  st.buffer, st.image, st.stdout⟩,
                 [.fsWrite outPath "WEBP" 90 true])
          else .error .ioError
  | .closeFig =>
      .ok (⟨st.fs, st.openFigures - 1, st.buffer, st.image, st.stdout⟩, [.closeFigure])
  | .printDone =>
      .ok (⟨st.fs, st.openFigures, st.buffer, st.image, st.stdout ++ [confirmMsg]⟩,
           [.printLine confirmMsg])

/-- Run a list of steps starting at a given step index: execute in order,
stopping with an error as soon as a step fails, either inherently or
because the failure oracle injects a failure at its index.  No error is
ever caught: the remaining steps do not run. -/
def runSteps : List Step → ℕ → Option ℕ → PyState → PyState × List Effect × Except PyErr Unit
  | [], _, _, st => (st, [], .ok ())
  | s :: rest, idx, failAt, st =>
    if failAt = some idx then (st, [], .error .injected)
    else
      match execStep st s with
      | .error e => (st, [], .error e)
      | .ok pr =>
        ((runSteps rest (idx + 1) failAt pr.1).1,
         pr.2 ++ (runSteps rest (idx + 1) failAt pr.1).2.1,
         (runSteps rest (idx + 1) failAt pr.1).2.2)

/-- The full step list of create_architecture_diagram, in source order. -/
def scriptSteps : List Step :=
  Step.createFigure ::
    (diagramCommands.map Step.draw ++
      [Step.tightLayout, Step.savefigPng, Step.seekBuffer, Step.openImage,
       Step.saveWebp, Step.closeFig, Step.printDone])

/-- Initial interpreter state: a file system, some number of figures
already open, empty buffer, no opened image, nothing printed. -/
def initState (fs : FS) (n : ℕ) : PyState := ⟨fs, n, none, none, []⟩

/-- One invocation of create_architecture_diagram over a file system, with
n figures already open and a failure-injection oracle. -/
def run (fs : FS) (n : ℕ) (failAt : Option ℕ) : PyState × List Effect × Except PyErr Unit :=
  runSteps scriptSteps 0 failAt (initState fs n)

/-- The effect trace of a successful execution. -/
def fullTrace : List Effect :=
  Effect.newFigure 16 12 ::
    (diagramCommands.map Effect.draw ++
      [Effect.tightLayout, Effect.savefigBuffer thePng, Effect.seek 0, Effect.openBuffer,
       Effect.fsWrite outPath "WEBP" 90 true, Effect.closeFigure, Effect.printLine confirmMsg])

/-- The effect trace of an execution that reaches the image write and
fails there with an I/O error. -/
def failTrace : List Effect :=
  Effect.newFigure 16 12 ::
    (diagramCommands.map Effect.draw ++
      [Effect.tightLayout, Effect.savefigBuffer thePng, Effect.seek 0, Effect.openBuffer])

/-- Drawing layer of a command: the canvas title is drawn first, then the
shapes with their labels, then the arrows, then the free-standing
annotation texts. -/
def DrawCmd.rank : DrawCmd → ℕ
  | .titleText _ => 0
  | .shapePatch _ _ _ _ _ _ _ _ => 1
  | .shapeLabel _ => 1
  | .arrowPatch _ _ _ _ _ _ _ _ _ => 2
  | .noteText _ => 3

/-- Whether a command is an arrow patch. -/
def DrawCmd.isArrow : DrawCmd → Bool
  | .arrowPatch _ _ _ _ _ _ _ _ _ => true
  | _ => false

/-- The two endpoints of an arrow command. -/
def DrawCmd.endpoints : DrawCmd → Option ((ℚ × ℚ) × (ℚ × ℚ))
  | .arrowPatch s e _ _ _ _ _ _ _ => some (s, e)
  | _ => none

/-- The styling of an arrow: arrowstyle, shrink margins at the two ends,
mutation scale, face color, edge color, line width. -/
structure ArrowStyle where
  arrowstyle : String
  shrinkA : ℚ
  shrinkB : ℚ
  mutationScale : ℚ
  fc : String
  ec : String
  linewidth : ℚ
deriving DecidableEq, Repr

/-- The styling of an arrow command. -/
def DrawCmd.arrowLook : DrawCmd → Option ArrowStyle
  | .arrowPatch _ _ a sa sb m fc ec lw => some ⟨a, sa, sb, m, fc, ec, lw⟩
  | _ => none

/-- The steps after figure creation: all draws, then the export tail. -/
def tailSteps : List Step :=
  diagramCommands.map Step.draw ++
    [Step.tightLayout, Step.savefigPng, Step.seekBuffer, Step.openImage,
     Step.saveWebp, Step.closeFig, Step.printDone]

instance : DecidableEq (Except PyErr Unit) := fun a b =>
  match a, b with
  | .ok (), .ok () => isTrue rfl
  | .error e, .error f =>
    match decEq e f with
    | isTrue h => isTrue (by rw [h])
    | isFalse h => isFalse (fun hc => h (by injection hc))
  | .ok (), .error _ => isFalse (fun hc => Except.noConfusion hc)
  | .error _, .ok () => isFalse (fun hc => Except.noConfusion hc)

/-- A file system whose docs directory exists and is writable. -/
def fsD : FS := ⟨[("docs", true)], []⟩

/-- A file system with no directories at all. -/
def fsEmpty : FS := ⟨[], []⟩

/-- An arbitrary stale file, used to exercise overwriting. -/
def oldFile : FileData := ⟨"PNG", 10, false, ⟨"png", 72, 1, 1, false, "gray"⟩⟩

/-- A file system whose docs directory is writable and which already holds
a stale file at the output path. -/
def fsPre : FS := ⟨[("docs", true)], [(outPath, oldFile)]⟩

/-!
General lemmas about the interpreter.
-/

theorem parentDir_outPath : parentDir outPath = "docs" := by decide

theorem scriptSteps_eq : scriptSteps = Step.createFigure :: tailSteps := rfl

theorem scriptSteps_length : scriptSteps.length = 67 := by decide

theorem printDone_not_dropLast : Step.printDone ∉ scriptSteps.dropLast := by decide

theorem createFigure_not_tail : Step.createFigure ∉ tailSteps := by decide

theorem closeFig_not_take63 : Step.closeFig ∉ tailSteps.take 63 := by decide

set_option maxRecDepth 100000 in
theorem outputDims_eval : outputDims diagramCommands = (4110, 3060) := by
  with_unfolding_all rfl

set_option maxRecDepth 100000 in
theorem trimPx_eval : trimPxW diagramCommands = 690 ∧ trimPxH diagramCommands = 540 := by
  with_unfolding_all exact ⟨rfl, rfl⟩

theorem runSteps_cons_none (s : Step) (rest : List Step) (idx : ℕ) (st : PyState) :
    runSteps (s :: rest) idx none st =
      match execStep st s with
      | .error e => (st, [], .error e)
      | .ok pr =>
        ((runSteps rest (idx + 1) none pr.1).1,
         pr.2 ++ (runSteps rest (idx + 1) none pr.1).2.1,
         (runSteps rest (idx + 1) none pr.1).2.2) := by
  rw [runSteps, if_neg (by simp)]

/-- Drawing steps never fail, never touch the state, and emit exactly the
corresponding draw effects, so a run skips over them. -/
theorem runSteps_draws (cs : List DrawCmd) (l : List Step) (idx : ℕ) (st : PyState) :
    runSteps (cs.map Step.draw ++ l) idx none st =
      ((runSteps l (idx + cs.length) none st).1,
       cs.map Effect.draw ++ (runSteps l (idx + cs.length) none st).2.1,
       (runSteps l (idx + cs.length) none st).2.2) := by
  induction cs generalizing idx with
  | nil => simp
  | cons c cs ih =>
    rw [List.map_cons, List.cons_append, runSteps_cons_none]
    dsimp only [execStep]
    rw [ih (idx + 1)]
    have harith : idx + 1 + cs.length = idx + (cs.length + 1) := by omega
    simp [harith]

/-- A successful run: with the output directory present and writable and no
injected failure, create_architecture_diagram updates the file system with
the single output file, restores the open-figure count, fills the buffer,
prints the confirmation line, and emits the full effect trace. -/
theorem run_ok (fs : FS) (n : ℕ) (hw : fs.writableDir "docs" = true) :
    run fs n none =
      (⟨fs.setFile outPath theFile, n, some thePng, some thePng, [confirmMsg]⟩,
       fullTrace, Except.ok ()) := by
  have hp : fs.writableDir (parentDir outPath) = true := by rw [parentDir_outPath]; exact hw
  unfold run scriptSteps initState
  rw [runSteps_cons_none]
  dsimp only [execStep]
  rw [runSteps_draws]
  rw [runSteps_cons_none]
  dsimp only [execStep]
  rw [runSteps_cons_none]
  dsimp only [execStep]
  rw [runSteps_cons_none]
  dsimp only [execStep]
  rw [runSteps_cons_none]
  dsimp only [execStep]
  rw [runSteps_cons_none]
  dsimp only [execStep]
  rw [if_pos hp]
  dsimp only []
  rw [runSteps_cons_none]
  dsimp only [execStep]
  rw [runSteps_cons_none]
  dsimp only [execStep]
  rw [runSteps]
  simp [fullTrace, theFile]

/-- A failing run: with the output directory absent or unwritable and no
injected failure, the run stops at the image write with an I/O error,
leaving the file system untouched, the figure open and nothing printed. -/
theorem run_err (fs : FS) (n : ℕ) (hw : fs.writableDir "docs" = false) :
    run fs n none =
      (⟨fs, n + 1, some thePng, some thePng, []⟩, failTrace, Except.error PyErr.ioError) := by
  have hp : ¬ (fs.writableDir (parentDir outPath) = true) := by
    rw [parentDir_outPath, hw]; simp
  unfold run scriptSteps initState
  rw [runSteps_cons_none]
  dsimp only [execStep]
  rw [runSteps_draws]
  rw [runSteps_cons_none]
  dsimp only [execStep]
  rw [runSteps_cons_none]
  dsimp only [execStep]
  rw [runSteps_cons_none]
  dsimp only [execStep]
  rw [runSteps_cons_none]
  dsimp only [execStep]
  rw [runSteps_cons_none]
  dsimp only [execStep]
  rw [if_neg hp]
  dsimp only []
  simp [failTrace]

/-- Writing twice to the same path keeps only the second file. -/
theorem setFile_setFile (fs : FS) (p : String) (a b : FileData) :
    (fs.setFile p a).setFile p b = fs.setFile p b := by
  simp [FS.setFile, List.filter_filter]

/-- Looking up the path just written returns the new file. -/
theorem lookupFile_setFile (fs : FS) (p : String) (a : FileData) :
    (fs.setFile p a).lookupFile p = some a := by
  simp [FS.setFile, FS.lookupFile, List.lookup]

/-- Writing a file does not change the directories. -/
theorem writableDir_setFile (fs : FS) (p : String) (a : FileData) (d : String) :
    (fs.setFile p a).writableDir d = fs.writableDir d := rfl

/-- A step that succeeds either leaves the file system alone or replaces it
with the file system holding the complete output file: the only
file-system step is the single atomic write of saveWebp. -/
theorem execStep_fs (st : PyState) (s : Step) (pr : PyState × List Effect)
    (h : execStep st s = .ok pr) :
    pr.1.fs = st.fs ∨
      ∃ png, pr.1.fs = st.fs.setFile outPath ⟨"WEBP", 90, true, png⟩ := by
  cases s <;> simp only [execStep] at h
  case createFigure => injection h with h; subst h; left; rfl
  case draw c => injection h with h; subst h; left; rfl
  case tightLayout => injection h with h; subst h; left; rfl
  case savefigPng => injection h with h; subst h; left; rfl
  case seekBuffer => injection h with h; subst h; left; rfl
  case openImage =>
    cases hb : st.buffer with
    | none => rw [hb] at h; simp at h
    | some png => rw [hb] at h; injection h with h; subst h; left; rfl
  case saveWebp =>
    cases hi : st.image with
    | none => rw [hi] at h; simp at h
    | some png =>
      rw [hi] at h
      dsimp only [] at h
      by_cases hw : st.fs.writableDir (parentDir outPath) = true
      · rw [if_pos hw] at h
        injection h with h
        subst h; right; exact ⟨png, rfl⟩
      · rw [if_neg hw] at h; simp at h
  case closeFig => injection h with h; subst h; left; rfl
  case printDone => injection h with h; subst h; left; rfl

/-- Through any run, with any failure oracle, the file system is either
unchanged or has exactly the complete output file written at the output
path: there is no partial-success state. -/
theorem runSteps_fs (l : List Step) (idx : ℕ) (f : Option ℕ) (st : PyState) :
    (runSteps l idx f st).1.fs = st.fs ∨
      ∃ png, (runSteps l idx f st).1.fs = st.fs.setFile outPath ⟨"WEBP", 90, true, png⟩ := by
  induction l generalizing idx st with
  | nil => left; rfl
  | cons s rest ih =>
    rw [runSteps]
    by_cases hf : f = some idx
    · rw [if_pos hf]; left; rfl
    · rw [if_neg hf]
      cases hs : execStep st s with
      | error e => left; rfl
      | ok pr =>
        dsimp only []
        rcases ih (idx + 1) pr.1 with h1 | ⟨png1, h1⟩ <;>
          rcases execStep_fs st s pr hs with h2 | ⟨png2, h2⟩
        · left; rw [h1, h2]
        · right; exact ⟨png2, by rw [h1, h2]⟩
        · right; exact ⟨png1, by rw [h1, h2]⟩
        · right; exact ⟨png1, by rw [h1, h2, setFile_setFile]⟩

/-- A failure injected at any index inside the step list makes the run
fail: nothing catches it and nothing retries. -/
theorem runSteps_inj_error (l : List Step) (idx k : ℕ) (st : PyState)
    (h1 : idx ≤ k) (h2 : k < idx + l.length) :
    (runSteps l idx (some k) st).2.2 ≠ Except.ok () := by
  induction l generalizing idx st with
  | nil => simp at h2; omega
  | cons s rest ih =>
    rw [runSteps]
    by_cases hk : k = idx
    · rw [if_pos (by rw [hk])]; simp
    · rw [if_neg (by simpa using hk)]
      cases hs : execStep st s with
      | error e => simp
      | ok pr =>
        dsimp only []
        exact ih (idx + 1) pr.1 (by omega) (by simp at h2; omega)

/-- A run with a failure injected at index k behaves, in state and trace,
exactly like a run of the prefix of steps before index k: nothing after
the failure point executes. -/
theorem runSteps_trunc (l : List Step) (idx k : ℕ) (st : PyState) (h : idx ≤ k) :
    (runSteps l idx (some k) st).1 = (runSteps (l.take (k - idx)) idx none st).1 ∧
    (runSteps l idx (some k) st).2.1 = (runSteps (l.take (k - idx)) idx none st).2.1 := by
  induction l generalizing idx st with
  | nil => rw [List.take_nil]; exact ⟨rfl, rfl⟩
  | cons s rest ih =>
    by_cases hk : k = idx
    · have hz : k - idx = 0 := by omega
      rw [hz, List.take_zero]
      have hL : runSteps (s :: rest) idx (some k) st = (st, [], .error .injected) := by
        rw [runSteps, if_pos (by rw [hk])]
      rw [hL]
      exact ⟨rfl, rfl⟩
    · have hlt : idx < k := lt_of_le_of_ne h fun a => hk a.symm
      have harith : k - idx = (k - (idx + 1)) + 1 := by omega
      rw [harith, List.take_succ_cons]
      rw [runSteps, runSteps]
      rw [if_neg (by simpa using hk), if_neg (by simp)]
      cases hs : execStep st s with
      | error e => exact ⟨rfl, rfl⟩
      | ok pr =>
        dsimp only []
        have := ih (idx + 1) pr.1 (by omega)
        rw [this.1, this.2]
        exact ⟨rfl, rfl⟩

/-- A step other than the confirmation print never emits a print effect. -/
theorem execStep_no_print (st : PyState) (s : Step) (pr : PyState × List Effect)
    (hs : s ≠ Step.printDone) (h : execStep st s = .ok pr) :
    pr.2.filter Effect.isPrint = [] := by
  cases s <;> simp only [execStep] at h
  case createFigure => injection h with h; subst h; rfl
  case draw c => injection h with h; subst h; rfl
  case tightLayout => injection h with h; subst h; rfl
  case savefigPng => injection h with h; subst h; rfl
  case seekBuffer => injection h with h; subst h; rfl
  case openImage =>
    cases hb : st.buffer with
    | none => rw [hb] at h; simp at h
    | some png => rw [hb] at h; injection h with h; subst h; rfl
  case saveWebp =>
    cases hi : st.image with
    | none => rw [hi] at h; simp at h
    | some png =>
      rw [hi] at h
      dsimp only [] at h
      by_cases hw : st.fs.writableDir (parentDir outPath) = true
      · rw [if_pos hw] at h; injection h with h; subst h; rfl
      · rw [if_neg hw] at h; simp at h
  case closeFig => injection h with h; subst h; rfl
  case printDone => exact absurd rfl hs

/-- If the confirmation print is the last step of the list and the run
fails for any reason, the trace contains no print effect at all: the
confirmation line is never printed by a failing execution. -/
theorem runSteps_error_no_print (l : List Step) (idx : ℕ) (f : Option ℕ) (st : PyState)
    (hl : Step.printDone ∉ l.dropLast)
    (he : (runSteps l idx f st).2.2 ≠ Except.ok ()) :
    (runSteps l idx f st).2.1.filter Effect.isPrint = [] := by
  induction l generalizing idx st with
  | nil => rfl
  | cons s rest ih =>
    rw [runSteps] at he ⊢
    by_cases hf : f = some idx
    · rw [if_pos hf]; rfl
    · rw [if_neg hf] at he ⊢
      cases hs : execStep st s with
      | error e => rfl
      | ok pr =>
        rw [hs] at he
        dsimp only [] at he
        dsimp only []
        rw [List.filter_append]
        cases rest with
        | nil => simp [runSteps] at he
        | cons r2 rest2 =>
          have hmem : Step.printDone ∉ s :: (r2 :: rest2).dropLast := by
            simpa [List.dropLast] using hl
          have hsp : s ≠ Step.printDone := by
            intro hcon; exact hmem (hcon ▸ List.mem_cons_self s _)
          have hl2 : Step.printDone ∉ (r2 :: rest2).dropLast :=
            fun hcon => hmem (List.mem_cons_of_mem s hcon)
          rw [execStep_no_print st s pr hsp hs, ih (idx + 1) pr.1 hl2 he]
          rfl

/-- A step other than figure creation and figure close leaves matplotlib's
open-figure count unchanged. -/
theorem execStep_figs (st : PyState) (s : Step) (pr : PyState × List Effect)
    (h1 : s ≠ Step.createFigure) (h2 : s ≠ Step.closeFig)
    (h : execStep st s = .ok pr) : pr.1.openFigures = st.openFigures := by
  cases s <;> simp only [execStep] at h
  case createFigure => exact absurd rfl h1
  case draw c => injection h with h; subst h; rfl
  case tightLayout => injection h with h; subst h; rfl
  case savefigPng => injection h with h; subst h; rfl
  case seekBuffer => injection h with h; subst h; rfl
  case openImage =>
    cases hb : st.buffer with
    | none => rw [hb] at h; simp at h
    | some png => rw [hb] at h; injection h with h; subst h; rfl
  case saveWebp =>
    cases hi : st.image with
    | none => rw [hi] at h; simp at h
    | some png =>
      rw [hi] at h
      dsimp only [] at h
      by_cases hw : st.fs.writableDir (parentDir outPath) = true
      · rw [if_pos hw] at h; injection h with h; subst h; rfl
      · rw [if_neg hw] at h; simp at h
  case closeFig => exact absurd rfl h2
  case printDone => injection h with h; subst h; rfl

/-- Running steps that neither create nor close a figure leaves the
open-figure count unchanged, whether the run succeeds or fails. -/
theorem runSteps_figs (l : List Step) (idx : ℕ) (f : Option ℕ) (st : PyState)
    (h1 : Step.createFigure ∉ l) (h2 : Step.closeFig ∉ l) :
    (runSteps l idx f st).1.openFigures = st.openFigures := by
  induction l generalizing idx st with
  | nil => rfl
  | cons s rest ih =>
    rw [runSteps]
    by_cases hf : f = some idx
    · rw [if_pos hf]
    · rw [if_neg hf]
      cases hs : execStep st s with
      | error e => rfl
      | ok pr =>
        dsimp only []
        rw [ih (idx + 1) pr.1 (fun h => h1 (List.mem_cons_of_mem s h))
              (fun h => h2 (List.mem_cons_of_mem s h))]
        exact execStep_figs st s pr
          (fun h => h1 (h ▸ List.mem_cons_self s _))
          (fun h => h2 (h ▸ List.mem_cons_self s _)) hs

/-!
The claims.
-/

/-- C1: a successful call to create_architecture_diagram writes exactly one
image file, at the fixed relative path docs/architecture-overview.webp, in
WEBP format with quality 90 and optimization enabled, produced by
re-encoding the PNG raster at 300 dpi that savefig first placed into the
in-memory buffer; the savefig-to-buffer event precedes the file write. -/
theorem C1_single_webp_write (fs : FS) (n : ℕ) (hw : fs.writableDir "docs" = true) :
    (run fs n none).2.2 = Except.ok () ∧
    (run fs n none).2.1.filter Effect.isFsWrite =
      [Effect.fsWrite "docs/architecture-overview.webp" "WEBP" 90 true] ∧
    (run fs n none).1.fs.lookupFile outPath = some theFile ∧
    theFile.format = "WEBP" ∧ theFile.quality = 90 ∧ theFile.optimize = true ∧
    theFile.source.format = "png" ∧ theFile.source.dpi = 300 ∧
    (run fs n none).2.1.findIdx Effect.isSavefig <
      (run fs n none).2.1.findIdx Effect.isFsWrite := by
  rw [run_ok fs n hw]
  refine ⟨rfl, ?_, lookupFile_setFile fs outPath theFile, rfl, rfl, rfl, rfl, rfl, ?_⟩
  · show fullTrace.filter Effect.isFsWrite =
      [Effect.fsWrite "docs/architecture-overview.webp" "WEBP" 90 true]
    decide
  · show fullTrace.findIdx Effect.isSavefig < fullTrace.findIdx Effect.isFsWrite
    decide

theorem C1_single_webp_write_witness :
    fsD.writableDir "docs" = true ∧ (run fsD 0 none).2.2 = Except.ok () :=
  ⟨by decide, (C1_single_webp_write fsD 0 (by decide)).1⟩

/-- C2: no error raised during any step is caught or retried: a failure
injected at any index of the step list makes the whole run fail; and
there is no partial-success state: under any failure oracle, the file
system either still holds its previous content at the output path or
holds the complete output file, never anything partial. -/
theorem C2_no_catch_atomic (fs : FS) (n : ℕ) (failAt : Option ℕ) (k : ℕ)
    (hk : k < scriptSteps.length) :
    ((run fs n failAt).1.fs.lookupFile outPath = fs.lookupFile outPath ∨
      ∃ png, (run fs n failAt).1.fs.lookupFile outPath =
        some ⟨"WEBP", 90, true, png⟩) ∧
    (run fs n (some k)).2.2 ≠ Except.ok () := by
  constructor
  · rcases runSteps_fs scriptSteps 0 failAt (initState fs n) with h | ⟨png, h⟩
    · left
      unfold run
      rw [h]
      rfl
    · right
      refine ⟨png, ?_⟩
      unfold run
      rw [h]
      exact lookupFile_setFile _ _ _
  · exact runSteps_inj_error scriptSteps 0 k (initState fs n) (Nat.zero_le k)
      (by simpa using hk)

theorem C2_no_catch_atomic_witness :
    ((run fsD 0 (some 3)).1.fs.lookupFile outPath = fsD.lookupFile outPath ∨
      ∃ png, (run fsD 0 (some 3)).1.fs.lookupFile outPath =
        some ⟨"WEBP", 90, true, png⟩) ∧
    (run fsD 0 (some 3)).2.2 ≠ Except.ok () :=
  C2_no_catch_atomic fsD 0 (some 3) 3 (by decide)

/-- C3: drawing proceeds back-to-front: along the command sequence the
layer rank is monotone (canvas title, then the shapes with their labels,
then the arrows, then the free-standing annotation texts), so every shape
is drawn before every arrow and every arrow before every annotation text;
the three layers are nonempty, with 22 shape commands, 8 arrows and 28
annotation texts. -/
theorem C3_draw_order :
    List.Sorted (· ≤ ·) (diagramCommands.map DrawCmd.rank) ∧
    (diagramCommands.map DrawCmd.rank).count 1 = 22 ∧
    (diagramCommands.map DrawCmd.rank).count 2 = 8 ∧
    (diagramCommands.map DrawCmd.rank).count 3 = 28 := by
  decide

/-- C4: dimension determinism: two independent renders of the same fixed
description, with arbitrary and possibly different rasterization samples,
produce images of identical pixel width and identical pixel height. -/
theorem C4_deterministic_dims (o1 o2 : RenderSample) :
    (renderImage diagramCommands o1).width = (renderImage diagramCommands o2).width ∧
    (renderImage diagramCommands o1).height = (renderImage diagramCommands o2).height :=
  ⟨rfl, rfl⟩

/-- C5: after a successful invocation, the decoded output raster has
strictly positive width and height, equal to the configured 16 x 12
figure scaled by 300 dpi minus exactly the pixels trimmed by the tight
bounding box applied at save time. -/
theorem C5_output_dims (fs : FS) (n : ℕ) (hw : fs.writableDir "docs" = true) :
    ∃ f, (run fs n none).1.fs.lookupFile outPath = some f ∧
      0 < f.source.width ∧ 0 < f.source.height ∧
      f.source.width + trimPxW diagramCommands = 16 * 300 ∧
      f.source.height + trimPxH diagramCommands = 12 * 300 := by
  rw [run_ok fs n hw]
  refine ⟨theFile, lookupFile_setFile fs outPath theFile, ?_, ?_, ?_, ?_⟩
  · show 0 < (outputDims diagramCommands).1
    rw [outputDims_eval]; decide
  · show 0 < (outputDims diagramCommands).2
    rw [outputDims_eval]; decide
  · show (outputDims diagramCommands).1 + trimPxW diagramCommands = 16 * 300
    rw [outputDims_eval, trimPx_eval.1]
  · show (outputDims diagramCommands).2 + trimPxH diagramCommands = 12 * 300
    rw [outputDims_eval, trimPx_eval.2]

theorem C5_output_dims_witness :
    fsD.writableDir "docs" = true ∧
    ∃ f, (run fsD 0 none).1.fs.lookupFile outPath = some f ∧
      0 < f.source.width ∧ 0 < f.source.height ∧
      f.source.width + trimPxW diagramCommands = 16 * 300 ∧
      f.source.height + trimPxH diagramCommands = 12 * 300 :=
  ⟨by decide, C5_output_dims fsD 0 (by decide)⟩

/-- C6: when the directory of the output path does not exist or is not
writable, the run fails with an I/O error, leaves the file system exactly
as it was, and in particular creates no file at the output path. -/
theorem C6_bad_dir (fs : FS) (n : ℕ) (hw : fs.writableDir "docs" = false) :
    (run fs n none).2.2 = Except.error PyErr.ioError ∧
    (run fs n none).1.fs = fs ∧
    (fs.lookupFile outPath = none → (run fs n none).1.fs.lookupFile outPath = none) := by
  rw [run_err fs n hw]
  exact ⟨rfl, rfl, fun h => h⟩

theorem C6_bad_dir_witness :
    fsEmpty.writableDir "docs" = false ∧
    (run fsEmpty 0 none).2.2 = Except.error PyErr.ioError ∧
    (run fsEmpty 0 none).1.fs.lookupFile outPath = none :=
  ⟨by decide, (C6_bad_dir fsEmpty 0 (by decide)).1,
   (C6_bad_dir fsEmpty 0 (by decide)).2.2 (by decide)⟩

/-- C7: invoking twice in sequence over a writable directory succeeds both
times and leaves the output file in place both times; the second call
overwrites the file written by the first, and a pre-existing file at the
path never causes an error. -/
theorem C7_repeat_overwrite (fs : FS) (n : ℕ) (hw : fs.writableDir "docs" = true) :
    (run fs n none).2.2 = Except.ok () ∧
    (run fs n none).1.fs.lookupFile outPath = some theFile ∧
    (run (run fs n none).1.fs n none).2.2 = Except.ok () ∧
    (run (run fs n none).1.fs n none).1.fs.lookupFile outPath = some theFile := by
  have h1 := run_ok fs n hw
  have hw2 : ((run fs n none).1.fs).writableDir "docs" = true := by
    rw [h1]; exact hw
  have h2 := run_ok ((run fs n none).1.fs) n hw2
  refine ⟨by rw [h1], ?_, by rw [h2], ?_⟩
  · rw [h1]; exact lookupFile_setFile fs outPath theFile
  · rw [h2]; exact lookupFile_setFile _ outPath theFile

theorem C7_repeat_overwrite_witness :
    fsPre.lookupFile outPath = some oldFile ∧ oldFile ≠ theFile ∧
    fsPre.writableDir "docs" = true ∧
    (run fsPre 0 none).2.2 = Except.ok () ∧
    (run fsPre 0 none).1.fs.lookupFile outPath = some theFile ∧
    (run (run fsPre 0 none).1.fs 0 none).2.2 = Except.ok () :=
  ⟨by decide, by intro h; exact absurd (congrArg FileData.quality h) (by decide),
   by decide, (C7_repeat_overwrite fsPre 0 (by decide)).1,
   (C7_repeat_overwrite fsPre 0 (by decide)).2.1,
   (C7_repeat_overwrite fsPre 0 (by decide)).2.2.1⟩

set_option maxRecDepth 100000 in
/-- C8: the command list contains exactly eight arrows; their endpoint
pairs are, in order, exactly the caller-specified endpoint list; and each
one is styled uniformly as a directed arrowheaded line shortened at both
ends by the same fixed margin of 5. -/
theorem C8_arrows :
    (diagramCommands.filter DrawCmd.isArrow).length = 8 ∧
    (diagramCommands.filter DrawCmd.isArrow).map DrawCmd.endpoints = arrows.map some ∧
    (diagramCommands.filter DrawCmd.isArrow).map DrawCmd.arrowLook =
      arrows.map (fun _ => some ⟨"->", 5, 5, 20, colors "flow", colors "flow", 2⟩) := by
  refine ⟨by decide, by with_unfolding_all decide, by with_unfolding_all decide⟩

/-- C9: a successful run prints exactly one line, the confirmation message,
and prints it only after the file write; a failing run, whatever the
failure, prints nothing. -/
theorem C9_confirmation (fs : FS) (n : ℕ) (failAt : Option ℕ) :
    ((run fs n none).2.2 = Except.ok () →
      (run fs n none).2.1.filter Effect.isPrint = [Effect.printLine confirmMsg] ∧
      (run fs n none).2.1.findIdx Effect.isFsWrite <
        (run fs n none).2.1.findIdx Effect.isPrint) ∧
    ((run fs n failAt).2.2 ≠ Except.ok () →
      (run fs n failAt).2.1.filter Effect.isPrint = []) := by
  constructor
  · intro hok
    by_cases hw : fs.writableDir "docs" = true
    · rw [run_ok fs n hw]
      constructor
      · show fullTrace.filter Effect.isPrint = [Effect.printLine confirmMsg]
        decide
      · show fullTrace.findIdx Effect.isFsWrite < fullTrace.findIdx Effect.isPrint
        decide
    · rw [run_err fs n (by simpa using hw)] at hok
      simp at hok
  · intro he
    exact runSteps_error_no_print scriptSteps 0 failAt (initState fs n)
      printDone_not_dropLast he

theorem C9_confirmation_witness :
    (run fsD 0 none).2.1.filter Effect.isPrint = [Effect.printLine confirmMsg] ∧
    (run fsD 0 (some 3)).2.1.filter Effect.isPrint = [] :=
  ⟨((C9_confirmation fsD 0 (some 3)).1 (by decide)).1,
   (C9_confirmation fsD 0 (some 3)).2 (by decide)⟩

/-- C10: on every successful run, the figure opened at the start is closed
again before the function returns: the open-figure count is restored and
the close event sits after the file write and before the confirmation
print; and when a failure is raised at any step from the first drawing
call up to and including the file write, no cleanup happens: the run
fails and the figure stays open. -/
theorem C10_figure_cleanup (fs : FS) (n k : ℕ) (h1 : 1 ≤ k) (h2 : k ≤ 64) :
    ((run fs n none).2.2 = Except.ok () →
      (run fs n none).1.openFigures = n ∧
      (run fs n none).2.1.findIdx Effect.isFsWrite <
        (run fs n none).2.1.findIdx Effect.isClose ∧
      (run fs n none).2.1.findIdx Effect.isClose <
        (run fs n none).2.1.findIdx Effect.isPrint) ∧
    ((run fs n (some k)).1.openFigures = n + 1 ∧
     (run fs n (some k)).2.2 ≠ Except.ok ()) := by
  constructor
  · intro hok
    by_cases hw : fs.writableDir "docs" = true
    · rw [run_ok fs n hw]
      refine ⟨rfl, ?_, ?_⟩
      · show fullTrace.findIdx Effect.isFsWrite < fullTrace.findIdx Effect.isClose
        decide
      · show fullTrace.findIdx Effect.isClose < fullTrace.findIdx Effect.isPrint
        decide
    · rw [run_err fs n (by simpa using hw)] at hok
      simp at hok
  · constructor
    · unfold run
      rw [(runSteps_trunc scriptSteps 0 k (initState fs n) (Nat.zero_le k)).1]
      rw [Nat.sub_zero]
      obtain ⟨j, rfl⟩ : ∃ j, k = j + 1 := ⟨k - 1, by omega⟩
      rw [scriptSteps_eq, List.take_succ_cons]
      rw [runSteps_cons_none]
      dsimp only [execStep]
      have hc1 : Step.createFigure ∉ tailSteps.take j :=
        fun h => createFigure_not_tail (List.take_subset j tailSteps h)
      have hc2 : Step.closeFig ∉ tailSteps.take j := by
        intro h
        have hj : j ≤ 63 := by omega
        have heq : (tailSteps.take 63).take j = tailSteps.take j := by
          rw [List.take_take, min_eq_left hj]
        rw [← heq] at h
        exact closeFig_not_take63 (List.take_subset j (tailSteps.take 63) h)
      rw [runSteps_figs (tailSteps.take j) (0 + 1) none _ hc1 hc2]
      rfl
    · exact runSteps_inj_error scriptSteps 0 k (initState fs n) (Nat.zero_le k)
        (by rw [scriptSteps_length]; omega)

theorem C10_figure_cleanup_witness :
    (run fsD 0 none).1.openFigures = 0 ∧
    (run fsD 0 (some 3)).1.openFigures = 0 + 1 ∧
    (run fsD 0 (some 3)).2.2 ≠ Except.ok () :=
  ⟨((C10_figure_cleanup fsD 0 3 (by decide) (by decide)).1 (by decide)).1,
   (C10_figure_cleanup fsD 0 3 (by decide) (by decide)).2.1,
   (C10_figure_cleanup fsD 0 3 (by decide) (by decide)).2.2⟩

end ArchDiagram
